import Mathlib

/-!
Shallow embedding of the crawl-orchestration and change-detection core of the
books-crawler repository (src/crawler/storage.py, src/crawler/scraper.py).

Python dictionaries are modelled as association lists over a JSON-like value
type; MongoDB collections become Lean lists threaded through a `Store` record;
wall-clock timestamps become a logical clock carried by the store; the SHA-256
digest is abstracted as a function parameter applied to the canonical
serialization string (change detection only ever compares digests for
equality).  Fallible store writes are modelled by boolean flags saying whether
the underlying database call raises; the surrounding try/except structure of
the Python code is translated branch by branch.
-/

namespace BooksCrawler

/-- JSON-like values stored in book dictionaries: strings, numbers
(Python floats/ints, modelled as rationals/naturals), and null. -/
inductive Val where
  | vstr (s : String)
  | vnum (q : ℚ)
  | vnat (n : Nat)
  | vnull
deriving DecidableEq, Repr

/-- A Python dict, as an association list (first binding wins on lookup). -/
abbrev Dict : Type := List (String × Val)

/-- `d.get(k)` / `k in d`: first binding for `k`, if any. -/
def dget : Dict → String → Option Val
  | [], _ => Option.none
  | p :: t, k => if p.1 = k then some p.2 else dget t k

/-- `d[k] = v` (also the effect of one key of a `{'$set': ...}` or `{**a, ...}`
merge): replace the value in place if the key exists, else append the pair. -/
def dset : Dict → String → Val → Dict
  | [], k, v => [(k, v)]
  | p :: t, k, v => if p.1 = k then (k, v) :: t else p :: dset t k v

/-- Merge a list of updates into a dict, left to right (Python dict-literal
merge `{**base, 'k1': v1, ...}` and Mongo `$set` both behave this way). -/
def dmerge (d : Dict) (upds : List (String × Val)) : Dict :=
  upds.foldl (fun acc p => dset acc p.1 p.2) d

/-- Python `str(...)` applied to a stored value (used for object ids). -/
def pyStr : Val → String
  | .vstr s => s
  | .vnum q => toString q.num ++ "/" ++ toString q.den
  | .vnat n => toString n
  | .vnull => "None"

/-- The fields hashed by `compute_content_hash` (storage.py lines 64-68). -/
def relevant_fields : List String :=
  ["name", "description", "category",
   "price_including_tax", "price_excluding_tax",
   "availability", "number_of_reviews", "rating"]

/-- `content_dict = {k: book_data.get(k) for k in relevant_fields if k in book_data}`. -/
def contentPairs (d : Dict) : List (String × Val) :=
  relevant_fields.filterMap (fun k => (dget d k).map (fun v => (k, v)))

/-- Lexicographic comparison of strings by unicode code point, the order
`json.dumps(..., sort_keys=True)` sorts keys by. -/
def strLeAux : List Char → List Char → Bool
  | [], _ => true
  | _ :: _, [] => false
  | a :: as, b :: bs =>
    if a.val.toNat < b.val.toNat then true
    else if b.val.toNat < a.val.toNat then false
    else strLeAux as bs

def strLe (a b : String) : Bool := strLeAux a.data b.data

/-- Insert one pair into a key-sorted list of pairs. -/
def insertByKey (p : String × Val) : List (String × Val) → List (String × Val)
  | [] => [p]
  | q :: t => if strLe p.1 q.1 then p :: q :: t else q :: insertByKey p t

/-- Sort pairs by key (the `sort_keys=True` of `json.dumps`). -/
def sortByKey (l : List (String × Val)) : List (String × Val) :=
  l.foldr insertByKey []

/-- Canonical rendering of one value inside the serialized content string. -/
def renderVal : Val → String
  | .vstr s => "s:" ++ s
  | .vnum q => "q:" ++ toString q.num ++ "/" ++ toString q.den
  | .vnat n => "n:" ++ toString n
  | .vnull => "null"

/-- Canonical rendering of a key-sorted pair list. -/
def renderPairs (l : List (String × Val)) : String :=
  l.foldl (fun acc p => acc ++ "|" ++ p.1 ++ "=" ++ renderVal p.2) ""

/-- `json.dumps(content_dict, sort_keys=True)` (storage.py line 72), modelled
as a canonical rendering of the key-sorted field list; only equality of these
strings is ever relevant downstream. -/
def content_str (d : Dict) : String :=
  renderPairs (sortByKey (contentPairs d))

/-- `BookStorage.compute_content_hash` (storage.py lines 52-75).  The SHA-256
hex digest is abstracted as the parameter `digest` applied to the canonical
serialization; the code only ever compares digests for equality. -/
def compute_content_hash (digest : String → String) (d : Dict) : String :=
  digest (content_str d)

/-- One document of the append-only `changes` collection.  Its shape is fixed
by `_log_changes` / `_log_new_book` (storage.py lines 166-172 and 184-190):
`changed_fields` maps a field name to its (old, new) pair. -/
structure ChangeEvent where
  book_id : String
  book_name : Val
  change_type : String
  changed_fields : List (String × Option Val × Option Val)
  timestamp : Nat
deriving DecidableEq, Repr

/-- The singleton crawler-state document.  A field holding `Option.none`
covers both "key absent" and "key present with value None": the code only
ever reads fields with `.get`, which cannot distinguish the two. -/
structure CrawlStateDoc where
  last_successful_url : Option String := Option.none
  last_crawl_time : Option Nat := Option.none
  total_books_crawled : Option Nat := Option.none
  status : Option String := Option.none
  error_message : Option String := Option.none
deriving DecidableEq, Repr

/-- A partial update passed to `update_crawl_state`: exactly the keys present
in the Python dict literal at the call site are `some`. -/
structure StatePatch where
  last_successful_url : Option String := Option.none
  last_crawl_time : Option Nat := Option.none
  total_books_crawled : Option Nat := Option.none
  status : Option String := Option.none
  error_message : Option (Option String) := Option.none
deriving DecidableEq, Repr

/-- Mongo `$set` merge of a patch into the singleton state document. -/
def applyPatch (doc : CrawlStateDoc) (p : StatePatch) : CrawlStateDoc :=
  { last_successful_url :=
      match p.last_successful_url with
      | some u => some u
      | Option.none => doc.last_successful_url
    last_crawl_time :=
      match p.last_crawl_time with
      | some t => some t
      | Option.none => doc.last_crawl_time
    total_books_crawled :=
      match p.total_books_crawled with
      | some n => some n
      | Option.none => doc.total_books_crawled
    status :=
      match p.status with
      | some s => some s
      | Option.none => doc.status
    error_message :=
      match p.error_message with
      | some e => e
      | Option.none => doc.error_message }

/-- The persistent state threaded through the storage layer: the `books`
collection, the append-only `changes` collection, the singleton crawler-state
document, an id counter standing in for ObjectId generation, and a logical
clock standing in for `datetime.now`. -/
structure Store where
  books : List Dict
  changes : List ChangeEvent
  crawl_state : Option CrawlStateDoc
  nextId : Nat
  time : Nat
deriving DecidableEq, Repr

/-- The default state dict returned by `get_crawl_state` when none is stored
(storage.py lines 202-208). -/
def default_crawl_state : CrawlStateDoc :=
  { last_successful_url := Option.none
    last_crawl_time := Option.none
    total_books_crawled := some 0
    status := some "idle"
    error_message := Option.none }

/-- `BookStorage.get_crawl_state` (storage.py lines 197-211).  `readOk` is
false when the underlying find raises; that except branch returns the empty
dict, every field of which reads back as None. -/
def get_crawl_state (readOk : Bool) (st : Store) : CrawlStateDoc :=
  if readOk then st.crawl_state.getD default_crawl_state
  else {}

/-- `BookStorage.update_crawl_state` (storage.py lines 213-224): a `$set`
upsert against the singleton document.  `writeOk` is false when the
underlying update raises; that except branch only logs, leaving the store
untouched and raising nothing. -/
def update_crawl_state (writeOk : Bool) (p : StatePatch) (st : Store) : Store :=
  if writeOk then
    { st with crawl_state := some (applyPatch (st.crawl_state.getD {}) p) }
  else st

/-- The fields diffed by `_log_changes` (storage.py lines 150-153). -/
def tracked_fields : List String :=
  ["price_including_tax", "price_excluding_tax",
   "availability", "number_of_reviews", "rating", "description"]

/-- The `changed_fields` map built by `_log_changes` (storage.py lines
155-163): tracked fields whose old and new values differ, with the old and
new value attached. -/
def diff_fields (old_book new_data : Dict) : List (String × Option Val × Option Val) :=
  tracked_fields.filterMap (fun f =>
    if dget old_book f ≠ dget new_data f
    then some (f, dget old_book f, dget new_data f)
    else Option.none)

/-- `BookStorage._log_changes` (storage.py lines 144-177).  Appends one
`updated` event when some tracked field differs; `changeWriteOk = false`
means the insert raises, which the method's own except swallows.  A missing
`_id` or `name` key would raise a KeyError while building the log entry,
likewise swallowed. -/
def log_changes (changeWriteOk : Bool) (old_book new_data : Dict) (st : Store) : Store :=
  let changed := diff_fields old_book new_data
  if changed = [] then st
  else
    match dget old_book "_id", dget new_data "name" with
    | some idv, some nm =>
      if changeWriteOk then
        { st with changes := st.changes ++
            [{ book_id := pyStr idv, book_name := nm, change_type := "updated",
               changed_fields := changed, timestamp := st.time }] }
      else st
    | _, _ => st

/-- `BookStorage._log_new_book` (storage.py lines 179-195).  Appends one
`new` event with an empty changed-fields map; a failing insert or a missing
`name` key is swallowed by the method's own except. -/
def log_new_book (changeWriteOk : Bool) (book_id : String) (book_data : Dict) (st : Store) : Store :=
  match dget book_data "name" with
  | Option.none => st
  | some nm =>
    if changeWriteOk then
      { st with changes := st.changes ++
          [{ book_id := book_id, book_name := nm, change_type := "new",
             changed_fields := [], timestamp := st.time }] }
    else st

/-- `collection.find_one({'source_url': v})`: first stored document whose
`source_url` field equals `v`. -/
def find_by_source_url : List Dict → Val → Option Dict
  | [], _ => Option.none
  | b :: t, v => if dget b "source_url" = some v then some b else find_by_source_url t v

/-- `collection.update_one({'_id': idv}, {'$set': upd})`: merge `upd` into the
first document whose `_id` equals `idv`. -/
def update_by_id : List Dict → Val → List (String × Val) → List Dict
  | [], _, _ => []
  | b :: t, idv, upd =>
    if dget b "_id" = some idv then dmerge b upd :: t
    else b :: update_by_id t idv upd

/-- `BookStorage.save_html_snapshot` (storage.py lines 23-50), abstracted to
the path string it returns; the claims never inspect snapshot contents. -/
def save_html_snapshot (url : String) (t : Nat) : String :=
  "snapshot:" ++ url ++ ":" ++ toString t

/-- The metadata fields merged over `book_data` when updating an existing
book (storage.py lines 107-112). -/
def update_metadata (content_hash html_path : String) (t : Nat) : List (String × Val) :=
  [("content_hash", Val.vstr content_hash),
   ("last_updated", Val.vnat t),
   ("html_snapshot_path", Val.vstr html_path)]

/-- The metadata fields merged over `book_data` when inserting a new book
(storage.py lines 124-131), together with the `_id` that `insert_one`
attaches to the stored document. -/
def insert_metadata (content_hash html_path newId : String) (t : Nat) : List (String × Val) :=
  [("crawl_timestamp", Val.vnat t),
   ("last_updated", Val.vnat t),
   ("status", Val.vstr "active"),
   ("content_hash", Val.vstr content_hash),
   ("html_snapshot_path", Val.vstr html_path),
   ("_id", Val.vstr newId)]

/-- `BookStorage.save_book` (storage.py lines 77-142), branch by branch.
`bookWriteOk` (resp. `changeWriteOk`) is false when the write against the
`books` (resp. `changes`) collection raises; any exception reaching
`save_book`'s own try is caught and turned into a `None` return (lines
140-142).  The KeyError sites are `book_data['source_url']` (line 92),
`existing_book['_id']` (lines 114, 121), and `book_data['name']` in the
logging f-strings (lines 117, 120, 137). -/
def save_book (digest : String → String) (bookWriteOk changeWriteOk : Bool)
    (book_data : Dict) (st : Store) : Option String × Store :=
  match dget book_data "source_url" with
  | Option.none => (Option.none, st)
  | some srcv =>
    let html_path := save_html_snapshot (pyStr srcv) st.time
    let content_hash := compute_content_hash digest book_data
    match find_by_source_url st.books srcv with
    | some existing =>
      if dget existing "content_hash" ≠ some (Val.vstr content_hash) then
        let st1 := log_changes changeWriteOk existing book_data st
        match dget existing "_id" with
        | Option.none => (Option.none, st1)
        | some idv =>
          if bookWriteOk then
            let newBooks := update_by_id st1.books idv
              (book_data ++ update_metadata content_hash html_path st.time)
            let st2 := { st1 with books := newBooks }
            match dget book_data "name" with
            | some _ => (some (pyStr idv), st2)
            | Option.none => (Option.none, st2)
          else (Option.none, st1)
      else
        match dget existing "_id", dget book_data "name" with
        | some idv, some _ => (some (pyStr idv), st)
        | _, _ => (Option.none, st)
    | Option.none =>
      if bookWriteOk then
        let newId := "oid" ++ toString st.nextId
        let book_in_db := dmerge book_data (insert_metadata content_hash html_path newId st.time)
        let st1 := { st with books := st.books ++ [book_in_db], nextId := st.nextId + 1 }
        let st2 := log_new_book changeWriteOk newId book_data st1
        match dget book_data "name" with
        | some _ => (some newId, st2)
        | Option.none => (Option.none, st2)
      else (Option.none, st)

/-- Outcome of one `client.get` attempt inside `fetch_with_retry`
(scraper.py lines 48-80): a 2xx body (`raise_for_status` passes), an
`httpx.HTTPStatusError` with its status code, an `httpx.RequestError` or
`httpx.TimeoutException` (one shared except clause), or any other
exception. -/
inductive FetchOutcome where
  | success (body : String)
  | httpError (code : Nat)
  | requestError
  | unexpectedError
deriving DecidableEq, Repr

/-- The attempt loop of `BookScraper.fetch_with_retry` (scraper.py lines
47-82).  `rem` is the number of loop iterations left out of
`max_retries + 1`, `attempt` the current 0-based index, and `oc` gives each
attempt's outcome.  Returns the result together with the list of back-off
delays slept (`crawler_retry_delay * (attempt + 1)`, line 65/73). -/
def fetch_attempts (retry_delay : ℚ) (max_retries : Nat) (oc : Nat → FetchOutcome) :
    Nat → Nat → Option String × List ℚ
  | 0, _ => (Option.none, [])
  | rem + 1, attempt =>
    match oc attempt with
    | .success body => (some body, [])
    | .httpError code =>
      if code = 404 then (Option.none, [])
      else if attempt < max_retries then
        let r := fetch_attempts retry_delay max_retries oc rem (attempt + 1)
        (r.1, retry_delay * ((attempt : ℚ) + 1) :: r.2)
      else (Option.none, [])
    | .requestError =>
      if attempt < max_retries then
        let r := fetch_attempts retry_delay max_retries oc rem (attempt + 1)
        (r.1, retry_delay * ((attempt : ℚ) + 1) :: r.2)
      else (Option.none, [])
    | .unexpectedError => (Option.none, [])

/-- `BookScraper.fetch_with_retry` (scraper.py lines 27-82):
`for attempt in range(max_retries + 1)` starting at attempt 0. -/
def fetch_with_retry (retry_delay : ℚ) (max_retries : Nat) (oc : Nat → FetchOutcome) :
    Option String × List ℚ :=
  fetch_attempts retry_delay max_retries oc (max_retries + 1) 0

/-- The environment of one crawl run: the fetch and parse collaborators
(each catalog-page or book fetch folded to the `Option String` that
`fetch_with_retry` returns), the digest, and the per-call database write
outcomes.  `bookWriteOk`/`changeWriteOk` are keyed by the book url being
saved. -/
structure CrawlEnv where
  pageFetch : String → Option String
  pageLinks : String → String → List String
  pageNext : String → String → Option String
  bookFetch : String → Option String
  parseBook : String → String → Option Dict
  digest : String → String
  bookWriteOk : String → Bool
  changeWriteOk : String → Bool
  stateWriteOk : Bool
  stateReadOk : Bool

/-- Mutable per-run traversal state: the store, the scraper's visited-url
set, and (as specification instrumentation only) the ordered trace of
catalog-page cursors handed to `scrape_catalog_page`. -/
structure RunState where
  store : Store
  visited : List String
  pageTrace : List String
deriving Repr

/-- `BookScraper.scrape_book` (scraper.py lines 84-121), with Python
truthiness of the fetched html and of the parsed dict translated
explicitly.  Returns the success flag the caller counts. -/
def scrape_book (env : CrawlEnv) (url : String) (rs : RunState) : Bool × RunState :=
  if url ∈ rs.visited then (true, rs)
  else
    match env.bookFetch url with
    | Option.none => (false, rs)
    | some html =>
      if html = "" then (false, rs)
      else
        match env.parseBook html url with
        | Option.none => (false, rs)
        | some book_data =>
          if book_data = [] then (false, rs)
          else
            match save_book env.digest (env.bookWriteOk url) (env.changeWriteOk url)
                book_data rs.store with
            | (some _, st) => (true, { rs with store := st, visited := rs.visited ++ [url] })
            | (Option.none, st) => (false, { rs with store := st })

/-- The per-page fan-out (scraper.py lines 194-199): `asyncio.gather` over
`scrape_book` tasks, modelled as one admissible linearization (the store
operations of each task are synchronous, so every interleaving performs the
same per-book steps in some order); returns the success count and resulting
state. -/
def scrape_step (env : CrawlEnv) (acc : Nat × RunState) (url : String) : Nat × RunState :=
  let r := scrape_book env url acc.2
  (acc.1 + (if r.1 then 1 else 0), r.2)

def scrape_batch (env : CrawlEnv) (links : List String) (rs : RunState) : Nat × RunState :=
  links.foldl (scrape_step env) (0, rs)

/-- How the `while current_page_url` loop of `crawl_all_books` ended:
normally (break on an empty link list, or no truthy next page), or with an
exception escaping the loop body. -/
inductive LoopExit where
  | done (total : Nat) (rs : RunState)
  | raised (msg : String) (total : Nat) (rs : RunState)
deriving Repr

/-- The run state carried by either loop exit. -/
def LoopExit.state : LoopExit → RunState
  | .done _ rs => rs
  | .raised _ _ rs => rs

/-- The message of the ValueError raised at scraper.py line 187 when
`scrape_catalog_page` returns the bare `[]` of its failed-fetch branch
(line 137) instead of a 2-tuple, so that unpacking fails. -/
def unpack_error_msg : String := "not enough values to unpack"

/-- The catalog loop of `BookScraper.crawl_all_books` (scraper.py lines
183-212).  `fuel` bounds the number of iterations (the Python loop may chase
next-page cursors forever); `Option.none` means fuel ran out.  A failed or
falsy page fetch makes `scrape_catalog_page` return a bare `[]` (line 137),
so the tuple unpacking at line 187 raises and the exception escapes the
loop; a parser exception is caught inside `scrape_catalog_page` (line 149)
and yields `([], None)`, which like any empty link list breaks the loop
normally.  A falsy (empty-string) next cursor ends the loop normally. -/
def crawl_loop (env : CrawlEnv) : Nat → String → Nat → RunState → Option LoopExit
  | 0, _, _, _ => Option.none
  | fuel + 1, cur, total, rs =>
    let rs0 := { rs with pageTrace := rs.pageTrace ++ [cur] }
    match env.pageFetch cur with
    | Option.none => some (.raised unpack_error_msg total rs0)
    | some html =>
      if html = "" then some (.raised unpack_error_msg total rs0)
      else
        let links := env.pageLinks html cur
        if links = [] then some (.done total rs0)
        else
          let b := scrape_batch env links rs0
          let total1 := total + b.1
          let st1 := update_crawl_state env.stateWriteOk
            { last_successful_url := some cur,
              last_crawl_time := some b.2.store.time,
              total_books_crawled := some total1,
              status := some "running" } b.2.store
          let rs2 := { b.2 with store := st1 }
          match env.pageNext html cur with
          | Option.none => some (.done total1 rs2)
          | some nxt =>
            if nxt = "" then some (.done total1 rs2)
            else crawl_loop env fuel nxt total1 rs2

/-- The hard-coded `self.base_url` (scraper.py line 23). -/
def base_url : String := "https://books.toscrape.com/"

/-- The first catalog page, `f"{self.base_url}catalogue/page-1.html"`
(scraper.py line 168). -/
def first_page_url : String := base_url ++ "catalogue/page-1.html"

/-- The starting cursor chosen at scraper.py lines 168-175: under
`resume=True` the stored `last_successful_url` is used only when truthy
(non-None and non-empty), else the first page. -/
def start_url (env : CrawlEnv) (resume : Bool) (st : Store) : String :=
  if resume then
    match (get_crawl_state env.stateReadOk st).last_successful_url with
    | some u => if u = "" then first_page_url else u
    | Option.none => first_page_url
  else first_page_url

/-- The observable outcome of one `crawl_all_books` call: whether an
exception was re-raised (with the message stored into the state), the final
`total_books` counter, the final store, and the run's instrumentation. -/
structure RunResult where
  raised : Option String
  total : Nat
  store : Store
  visited : List String
  pageTrace : List String
deriving Repr

/-- `BookScraper.crawl_all_books` (scraper.py lines 151-230): mark the state
`running`, choose the start cursor, run the catalog loop, then either mark
the state `completed` (normal exit, lines 214-220) or mark it `failed` with
the error message and re-raise (lines 224-230).  `Option.none` means the
fuel bound was hit. -/
def crawl_all_books (env : CrawlEnv) (fuel : Nat) (resume : Bool) (st : Store) :
    Option RunResult :=
  let st0 := update_crawl_state env.stateWriteOk
    { status := some "running", error_message := some Option.none } st
  match crawl_loop env fuel (start_url env resume st0) 0
      { store := st0, visited := [], pageTrace := [] } with
  | Option.none => Option.none
  | some (.done total rs) =>
    let stF := update_crawl_state env.stateWriteOk
      { status := some "completed",
        last_crawl_time := some rs.store.time,
        total_books_crawled := some total,
        error_message := some Option.none } rs.store
    some { raised := Option.none, total := total, store := stF,
           visited := rs.visited, pageTrace := rs.pageTrace }
  | some (.raised msg total rs) =>
    let stF := update_crawl_state env.stateWriteOk
      { status := some "failed", error_message := some (some msg) } rs.store
    some { raised := some msg, total := total, store := stF,
           visited := rs.visited, pageTrace := rs.pageTrace }

/-- The status field of the singleton crawl-state document of a store. -/
def run_status (st : Store) : Option String :=
  match st.crawl_state with
  | Option.none => Option.none
  | some doc => doc.status

/-- Phase of one fan-out task with respect to the concurrency limiter of
`fetch_with_retry` (scraper.py lines 49-54): not yet inside
`async with self.semaphore`, holding the semaphore with its `client.get` in
flight, or finished (semaphore released). -/
inductive TaskPhase where
  | pending
  | inFlight
  | done
deriving DecidableEq, Repr

/-- State of the counting semaphore (`asyncio.Semaphore(K)`, scraper.py line
25) together with the phases of the fan-out tasks sharing it. -/
structure SemState where
  tokens : Nat
  tasks : List TaskPhase
deriving DecidableEq, Repr

/-- Initial state: `K` free tokens, `n` tasks none of which has started its
fetch. -/
def semInit (K n : Nat) : SemState :=
  { tokens := K, tasks := List.replicate n TaskPhase.pending }

/-- One scheduler step of the fan-out under `asyncio.Semaphore` semantics: a
pending task may enter `async with self.semaphore` only when a token is
free, and a task holding the semaphore releases its token when its fetch
returns. -/
inductive SemStep : SemState → SemState → Prop where
  | acquire (s : SemState) (i : Nat) (hp : s.tasks.get? i = some TaskPhase.pending)
      (ht : 0 < s.tokens) :
      SemStep s { tokens := s.tokens - 1, tasks := s.tasks.set i TaskPhase.inFlight }
  | release (s : SemState) (i : Nat) (hp : s.tasks.get? i = some TaskPhase.inFlight) :
      SemStep s { tokens := s.tokens + 1, tasks := s.tasks.set i TaskPhase.done }

/-- Reachability by scheduler steps from a given initial state. -/
inductive SemReach (init : SemState) : SemState → Prop where
  | refl : SemReach init init
  | step {s t : SemState} : SemReach init s → SemStep s t → SemReach init t

/-- Number of fetches currently in flight. -/
def inFlightCount (s : SemState) : Nat :=
  (s.tasks.filter (fun p => p == TaskPhase.inFlight)).length

/-- The Change Event invariant of the spec (§3): a `new` event has an empty
changed-fields map; an `updated` event has a non-empty map whose keys lie in
the canonical subset. -/
def eventOk (e : ChangeEvent) : Prop :=
  (e.change_type = "new" → e.changed_fields = []) ∧
  (e.change_type = "updated" →
    e.changed_fields ≠ [] ∧ ∀ p ∈ e.changed_fields, p.1 ∈ relevant_fields)

/-- The change log of `st2` extends that of `st` by appended entries, all of
which satisfy the Change Event invariant. -/
def changesExtend (st st2 : Store) : Prop :=
  ∃ tail, st2.changes = st.changes ++ tail ∧ ∀ e ∈ tail, eventOk e

/-- Every catalog-page fetch succeeds with a truthy body (no store failure is
a page-fetch failure, so this isolates persistence faults from fetch
faults). -/
def pagesFetchOk (env : CrawlEnv) : Prop :=
  ∀ url, ∃ b, env.pageFetch url = some b ∧ b ≠ ""

/-- The patch written at the start of every run (scraper.py lines 160-163). -/
def running_patch : StatePatch :=
  { status := some "running", error_message := some Option.none }

/-- The semaphore invariant: tasks holding the semaphore plus free tokens is
constant. -/
def semInv (K : Nat) (s : SemState) : Prop := inFlightCount s + s.tokens = K

/-- The identity digest used to instantiate the abstracted SHA-256 in
concrete evaluations (any digest works for them; equality of digests of
equal strings is all the code relies on). -/
def idDigest : String → String := fun s => s

/-- A fully populated record as the parser produces it (parser.py lines
92-103), natural key `u1`. -/
def priceOld : Dict :=
  [("name", Val.vstr "A"), ("description", Val.vstr "d"), ("category", Val.vstr "c"),
   ("price_including_tax", Val.vnum (mkRat 5177 100)), ("price_excluding_tax", Val.vnum (mkRat 4315 100)),
   ("availability", Val.vstr "In stock"), ("number_of_reviews", Val.vnat 2),
   ("rating", Val.vnat 3), ("source_url", Val.vstr "u1")]

/-- The same record re-submitted with `price_including_tax` changed to
49.99 and everything else equal (spec §8, change-correctness scenario). -/
def priceNew : Dict :=
  [("name", Val.vstr "A"), ("description", Val.vstr "d"), ("category", Val.vstr "c"),
   ("price_including_tax", Val.vnum (mkRat 4999 100)), ("price_excluding_tax", Val.vnum (mkRat 4315 100)),
   ("availability", Val.vstr "In stock"), ("number_of_reviews", Val.vnat 2),
   ("rating", Val.vnat 3), ("source_url", Val.vstr "u1")]

/-- The same record re-submitted with only the category changed: the hash
differs (category is hashed) but no tracked field differs. -/
def catNew : Dict :=
  [("name", Val.vstr "A"), ("description", Val.vstr "d"), ("category", Val.vstr "c2"),
   ("price_including_tax", Val.vnum (mkRat 5177 100)), ("price_excluding_tax", Val.vnum (mkRat 4315 100)),
   ("availability", Val.vstr "In stock"), ("number_of_reviews", Val.vnat 2),
   ("rating", Val.vnat 3), ("source_url", Val.vstr "u1")]

/-- `priceOld` as it sits in the `books` collection after an insert. -/
def priceStored : Dict :=
  priceOld ++ [("_id", Val.vstr "oid0"),
               ("content_hash", Val.vstr (compute_content_hash idDigest priceOld))]

/-- A store already holding `priceStored`. -/
def priceStore : Store :=
  { books := [priceStored], changes := [], crawl_state := Option.none, nextId := 1, time := 5 }

/-- The empty store. -/
def emptyStore : Store :=
  { books := [], changes := [], crawl_state := Option.none, nextId := 0, time := 0 }

/-- Two dictionaries agreeing on every canonical field but with different
insertion order and different metadata fields. -/
def hashDictA : Dict :=
  [("name", Val.vstr "A"), ("description", Val.vstr "d"), ("category", Val.vstr "c"),
   ("price_including_tax", Val.vnum (mkRat 5177 100)), ("price_excluding_tax", Val.vnum (mkRat 4315 100)),
   ("availability", Val.vstr "In stock"), ("number_of_reviews", Val.vnat 2),
   ("rating", Val.vnat 3), ("image_url", Val.vstr "img"), ("source_url", Val.vstr "u1")]

def hashDictB : Dict :=
  [("source_url", Val.vstr "u2"), ("rating", Val.vnat 3), ("number_of_reviews", Val.vnat 2),
   ("availability", Val.vstr "In stock"), ("price_excluding_tax", Val.vnum (mkRat 4315 100)),
   ("price_including_tax", Val.vnum (mkRat 5177 100)), ("category", Val.vstr "c"),
   ("description", Val.vstr "d"), ("name", Val.vstr "A"), ("crawl_timestamp", Val.vnat 9)]

/-- One-page environment: every catalog page fetches to `"h"` and lists the
given child urls with no next page; every book fetches and parses; all
database writes succeed. -/
def constEnv (links : List String) : CrawlEnv :=
  { pageFetch := fun _ => some "h"
    pageLinks := fun _ _ => links
    pageNext := fun _ _ => Option.none
    bookFetch := fun _ => some "bh"
    parseBook := fun _ url =>
      some [("source_url", Val.vstr url), ("name", Val.vstr "B"),
            ("price_including_tax", Val.vnum (mkRat 10 1))]
    digest := fun s => s
    bookWriteOk := fun _ => true
    changeWriteOk := fun _ => true
    stateWriteOk := true
    stateReadOk := true }

/-- Like `constEnv ["b1"]` but the `books`-collection write raises for every
book (a store write failure on the insert path). -/
def envFailWrite : CrawlEnv :=
  { constEnv ["b1"] with bookWriteOk := fun _ => false }

/-- Environment whose first catalog page fetches fine but yields zero book
links. -/
def envEmptyPage : CrawlEnv :=
  { constEnv [] with pageLinks := fun _ _ => [] }

/-- Environment where every page fetch fails (`fetch_with_retry` returns
None), so the loop body raises on the first page. -/
def envNoFetch : CrawlEnv :=
  { constEnv [] with pageFetch := fun _ => Option.none }

/-- A store whose persisted crawl state holds the non-null but empty-string
cursor. -/
def stEmptyCursor : Store :=
  { books := [], changes := [], nextId := 0, time := 0,
    crawl_state := some { last_successful_url := some "" } }

/-- A store whose persisted crawl state holds the cursor `"p5"`. -/
def stP5 : Store :=
  { books := [], changes := [], nextId := 0, time := 0,
    crawl_state := some { last_successful_url := some "p5" } }

/-- Every attempt yields a not-found response. -/
def oc404 : Nat → FetchOutcome := fun _ => FetchOutcome.httpError 404

/-- Every attempt fails transiently. -/
def ocTransientAll : Nat → FetchOutcome := fun _ => FetchOutcome.requestError

/-- Two transient failures, then success on the third attempt. -/
def ocThird : Nat → FetchOutcome :=
  fun n => if n = 2 then FetchOutcome.success "body" else FetchOutcome.requestError
lemma dget_dset_self (d : Dict) (k : String) (v : Val) : dget (dset d k v) k = some v := by
  induction d with
  | nil => simp [dset, dget]
  | cons p t ih =>
    by_cases h : p.1 = k
    · simp [dset, h, dget]
    · simp [dset, h, dget, ih]

lemma dget_dset_ne (d : Dict) {k k2 : String} {v : Val} (h : k ≠ k2) :
    dget (dset d k v) k2 = dget d k2 := by
  induction d with
  | nil => simp [dset, dget, h]
  | cons p t ih =>
    by_cases hp : p.1 = k
    · have h2 : ¬ (p.1 = k2) := by rw [hp]; exact h
      simp [dset, hp, dget, h, h2]
    · by_cases hp2 : p.1 = k2
      · have h2 : ¬ (k2 = k) := fun hh => h hh.symm
        simp [dset, hp, dget, hp2, h2]
      · simp [dset, hp, dget, hp2, ih]

lemma dget_dmerge_notin (d : Dict) (upds : List (String × Val)) {k : String}
    (h : ∀ p ∈ upds, p.1 ≠ k) : dget (dmerge d upds) k = dget d k := by
  induction upds generalizing d with
  | nil => simp [dmerge]
  | cons p t ih =>
    have hp : p.1 ≠ k := h p (by simp)
    have ht : ∀ q ∈ t, q.1 ≠ k := fun q hq => h q (by simp [hq])
    simp only [dmerge, List.foldl_cons]
    rw [show (List.foldl (fun acc q => dset acc q.1 q.2) (dset d p.1 p.2) t) =
        dmerge (dset d p.1 p.2) t from rfl, ih _ ht, dget_dset_ne _ hp]

lemma dget_dmerge_self (d : Dict) (l1 : List (String × Val)) {k : String} {v : Val}
    (l2 : List (String × Val)) (h2 : ∀ p ∈ l2, p.1 ≠ k) :
    dget (dmerge d (l1 ++ (k, v) :: l2)) k = some v := by
  have step : dmerge d (l1 ++ (k, v) :: l2) = dmerge (dset (dmerge d l1) k v) l2 := by
    simp [dmerge, List.foldl_append]
  rw [step, dget_dmerge_notin _ _ h2, dget_dset_self]

lemma find_by_source_url_append {l : List Dict} (l2 : List Dict) {v : Val}
    (h : find_by_source_url l v = Option.none) :
    find_by_source_url (l ++ l2) v = find_by_source_url l2 v := by
  induction l with
  | nil => simp
  | cons b t ih =>
    by_cases hb : dget b "source_url" = some v
    · simp [find_by_source_url, hb] at h
    · simp only [find_by_source_url, hb, if_neg] at h ⊢
      simp only [List.cons_append, find_by_source_url, hb, if_neg, ite_false]
      exact ih h

lemma changesExtend_refl (st : Store) : changesExtend st st := ⟨[], by simp⟩

lemma changesExtend_trans {st1 st2 st3 : Store}
    (h1 : changesExtend st1 st2) (h2 : changesExtend st2 st3) :
    changesExtend st1 st3 := by
  obtain ⟨t1, e1, ok1⟩ := h1
  obtain ⟨t2, e2, ok2⟩ := h2
  refine ⟨t1 ++ t2, by simp [e2, e1], ?_⟩
  intro e he
  rcases List.mem_append.mp he with h | h
  · exact ok1 e h
  · exact ok2 e h

lemma changesExtend_of_changes_eq {st1 st2 : Store} (h : st2.changes = st1.changes) :
    changesExtend st1 st2 := ⟨[], by simp [h]⟩

lemma diff_fields_keys {o n : Dict} {p : String × Option Val × Option Val}
    (h : p ∈ diff_fields o n) : p.1 ∈ relevant_fields := by
  obtain ⟨f, hf, hp⟩ := List.mem_filterMap.mp h
  have hfk : p.1 = f := by
    by_cases hne : dget o f ≠ dget n f
    · simp [hne] at hp; simp [← hp]
    · simp [hne] at hp
  rw [hfk]
  have : tracked_fields ⊆ relevant_fields := by decide
  exact this hf

lemma log_changes_extend (cw : Bool) (old_book new_data : Dict) (st : Store) :
    changesExtend st (log_changes cw old_book new_data st) := by
  unfold log_changes
  by_cases hc : diff_fields old_book new_data = []
  · simp [hc]; exact changesExtend_refl st
  · simp only [hc, if_neg, ite_false]
    cases hid : dget old_book "_id" with
    | none => exact changesExtend_refl st
    | some idv =>
      cases hnm : dget new_data "name" with
      | none => exact changesExtend_refl st
      | some nm =>
        cases cw with
        | false => exact changesExtend_refl st
        | true =>
          refine ⟨[⟨pyStr idv, nm, "updated", diff_fields old_book new_data, st.time⟩],
            by simp, ?_⟩
          intro e he
          simp at he
          subst he
          exact ⟨fun h => by simp at h, fun _ => ⟨hc, fun p hp => diff_fields_keys hp⟩⟩

lemma log_new_book_extend (cw : Bool) (bid : String) (book_data : Dict) (st : Store) :
    changesExtend st (log_new_book cw bid book_data st) := by
  unfold log_new_book
  cases hnm : dget book_data "name" with
  | none => exact changesExtend_refl st
  | some nm =>
    cases cw with
    | false => exact changesExtend_refl st
    | true =>
      refine ⟨[⟨bid, nm, "new", [], st.time⟩], by simp, ?_⟩
      intro e he
      simp at he
      subst he
      exact ⟨fun _ => rfl, fun h => by simp at h⟩

lemma log_changes_books (cw : Bool) (o n : Dict) (st : Store) :
    (log_changes cw o n st).books = st.books := by
  unfold log_changes
  repeat' split
  all_goals first
    | rfl
    | (simp only []; split <;> rfl)

lemma log_changes_crawl_state (cw : Bool) (o n : Dict) (st : Store) :
    (log_changes cw o n st).crawl_state = st.crawl_state := by
  unfold log_changes
  repeat' split
  all_goals first
    | rfl
    | (simp only []; split <;> rfl)

lemma log_changes_time (cw : Bool) (o n : Dict) (st : Store) :
    (log_changes cw o n st).time = st.time := by
  unfold log_changes
  repeat' split
  all_goals first
    | rfl
    | (simp only []; split <;> rfl)

lemma log_changes_nextId (cw : Bool) (o n : Dict) (st : Store) :
    (log_changes cw o n st).nextId = st.nextId := by
  unfold log_changes
  repeat' split
  all_goals first
    | rfl
    | (simp only []; split <;> rfl)

lemma log_new_book_books (cw : Bool) (bid : String) (d : Dict) (st : Store) :
    (log_new_book cw bid d st).books = st.books := by
  unfold log_new_book
  repeat' split
  all_goals first
    | rfl
    | (simp only []; split <;> rfl)

lemma log_new_book_crawl_state (cw : Bool) (bid : String) (d : Dict) (st : Store) :
    (log_new_book cw bid d st).crawl_state = st.crawl_state := by
  unfold log_new_book
  repeat' split
  all_goals first
    | rfl
    | (simp only []; split <;> rfl)

lemma log_new_book_time (cw : Bool) (bid : String) (d : Dict) (st : Store) :
    (log_new_book cw bid d st).time = st.time := by
  unfold log_new_book
  repeat' split
  all_goals first
    | rfl
    | (simp only []; split <;> rfl)

lemma save_book_crawl_state (digest : String → String) (bw cw : Bool) (d : Dict) (st : Store) :
    ((save_book digest bw cw d st).2).crawl_state = st.crawl_state := by
  simp only [save_book]
  repeat' split
  all_goals simp_all [log_changes_crawl_state, log_new_book_crawl_state]

lemma save_book_time (digest : String → String) (bw cw : Bool) (d : Dict) (st : Store) :
    ((save_book digest bw cw d st).2).time = st.time := by
  simp only [save_book]
  repeat' split
  all_goals simp_all [log_changes_time, log_new_book_time]

lemma save_book_books_noWrite (digest : String → String) (cw : Bool) (d : Dict) (st : Store) :
    ((save_book digest false cw d st).2).books = st.books := by
  simp only [save_book]
  repeat' split
  all_goals simp_all [log_changes_books, log_new_book_books]

lemma save_book_extend (digest : String → String) (bw cw : Bool) (d : Dict) (st : Store) :
    changesExtend st (save_book digest bw cw d st).2 := by
  simp only [save_book]
  repeat' split
  all_goals first
    | exact changesExtend_refl st
    | exact log_changes_extend cw _ d st
    | exact log_new_book_extend cw _ d _
    | exact changesExtend_trans (log_changes_extend cw _ d st)
        (changesExtend_of_changes_eq rfl)
    | exact changesExtend_trans (changesExtend_of_changes_eq rfl)
        (log_new_book_extend cw _ d _)

/-- The idempotent branch of `save_book` (storage.py lines 119-121): a stored
record whose `content_hash` equals the newly computed hash is returned
untouched, with no mutation of any collection and no event. -/
lemma save_book_hash_match (digest : String → String) (bw cw : Bool)
    {d : Dict} {st : Store} {srcv idv : Val} {existing : Dict} {nm : Val}
    (hsrc : dget d "source_url" = some srcv)
    (hfind : find_by_source_url st.books srcv = some existing)
    (hhash : dget existing "content_hash" =
      some (Val.vstr (compute_content_hash digest d)))
    (hid : dget existing "_id" = some idv)
    (hnm : dget d "name" = some nm) :
    save_book digest bw cw d st = (some (pyStr idv), st) := by
  simp [save_book, hsrc, hfind, hhash, hid, hnm]

/-- The update branch of `save_book` (storage.py lines 100-118) appends
exactly one `updated` event, carrying exactly the tracked-field diff, when
some tracked field differs and the change-log insert succeeds. -/
lemma save_book_update_changes (digest : String → String) (bw : Bool)
    {d : Dict} {st : Store} {srcv idv : Val} {existing : Dict} {nm : Val}
    (hsrc : dget d "source_url" = some srcv)
    (hfind : find_by_source_url st.books srcv = some existing)
    (hhash : dget existing "content_hash" ≠
      some (Val.vstr (compute_content_hash digest d)))
    (hdiff : diff_fields existing d ≠ [])
    (hid : dget existing "_id" = some idv)
    (hnm : dget d "name" = some nm) :
    ((save_book digest bw true d st).2).changes =
      st.changes ++ [⟨pyStr idv, nm, "updated", diff_fields existing d, st.time⟩] := by
  cases bw <;>
    simp [save_book, hsrc, hfind, hhash, hid, hnm, log_changes, hdiff]

/-- The update branch of `save_book` rewrites the `books` collection by an
`update_one` at the existing record's `_id`, whose `$set` payload is the
submitted fields merged with the new hash, the new `last_updated` timestamp
and the snapshot path (storage.py lines 106-116). -/
lemma save_book_update_books (digest : String → String)
    {d : Dict} {st : Store} {srcv idv : Val} {existing : Dict} {nm : Val}
    (hsrc : dget d "source_url" = some srcv)
    (hfind : find_by_source_url st.books srcv = some existing)
    (hhash : dget existing "content_hash" ≠
      some (Val.vstr (compute_content_hash digest d)))
    (hid : dget existing "_id" = some idv)
    (hnm : dget d "name" = some nm) :
    ((save_book digest true true d st).2).books =
      update_by_id st.books idv
        (d ++ update_metadata (compute_content_hash digest d)
          (save_html_snapshot (pyStr srcv) st.time) st.time) := by
  simp [save_book, hsrc, hfind, hhash, hid, hnm, log_changes_books]

/-- Merging a duplicate-free dict preserves its bindings: Python dicts have
unique keys, and `{'$set': d}` writes each of `d`'s values. -/
lemma dget_dmerge_first {k : String} {v : Val} :
    ∀ {d : Dict} (b : Dict), (d.map Prod.fst).Nodup → dget d k = some v →
      dget (dmerge b d) k = some v := by
  intro d
  induction d with
  | nil => intro b _ h; simp [dget] at h
  | cons p t ih =>
    intro b hnd h
    simp only [List.map_cons, List.nodup_cons] at hnd
    obtain ⟨hp, ht⟩ := hnd
    have hstep : dmerge b (p :: t) = dmerge (dset b p.1 p.2) t := rfl
    by_cases hk : p.1 = k
    · simp only [dget, hk, if_pos, ite_true, Option.some.injEq] at h
      rw [hstep, dget_dmerge_notin _ _ ?notin]
      · rw [← hk, ← h]
        exact dget_dset_self b p.1 p.2
      case notin =>
        intro q hq hqk
        apply hp
        rw [hk, ← hqk]
        exact List.mem_map_of_mem Prod.fst hq
    · simp only [dget, hk, if_neg, ite_false] at h
      rw [hstep]
      exact ih _ ht h

lemma dget_updateMeta_hash (b d : Dict) (ch hp : String) (t : Nat) :
    dget (dmerge b (d ++ update_metadata ch hp t)) "content_hash" =
      some (Val.vstr ch) := by
  have hshape : d ++ update_metadata ch hp t =
      d ++ ("content_hash", Val.vstr ch) ::
        [("last_updated", Val.vnat t), ("html_snapshot_path", Val.vstr hp)] := rfl
  rw [hshape]
  refine dget_dmerge_self b d _ ?_
  intro p hp2
  simp only [List.mem_cons, List.not_mem_nil, or_false] at hp2
  rcases hp2 with h | h <;> simp [h]

lemma dget_updateMeta_time (b d : Dict) (ch hp : String) (t : Nat) :
    dget (dmerge b (d ++ update_metadata ch hp t)) "last_updated" =
      some (Val.vnat t) := by
  have hshape : d ++ update_metadata ch hp t =
      (d ++ [("content_hash", Val.vstr ch)]) ++ ("last_updated", Val.vnat t) ::
        [("html_snapshot_path", Val.vstr hp)] := by
    simp [update_metadata]
  rw [hshape]
  refine dget_dmerge_self b _ _ ?_
  intro p hp2
  simp only [List.mem_cons, List.not_mem_nil, or_false] at hp2
  simp [hp2]

lemma dget_updateMeta_field (b d : Dict) (ch hp : String) (t : Nat) {k : String} {v : Val}
    (hnd : (d.map Prod.fst).Nodup) (hk : dget d k = some v)
    (h1 : k ≠ "content_hash") (h2 : k ≠ "last_updated")
    (h3 : k ≠ "html_snapshot_path") :
    dget (dmerge b (d ++ update_metadata ch hp t)) k = some v := by
  have hsplit : dmerge b (d ++ update_metadata ch hp t) =
      dmerge (dmerge b d) (update_metadata ch hp t) := by
    simp [dmerge, List.foldl_append]
  rw [hsplit, dget_dmerge_notin _ _ ?hmeta]
  · exact dget_dmerge_first b hnd hk
  case hmeta =>
    intro p hp2
    simp only [update_metadata, List.mem_cons, List.not_mem_nil, or_false] at hp2
    rcases hp2 with h | h | h
    · rw [h]; exact fun hh => h1 hh.symm
    · rw [h]; exact fun hh => h2 hh.symm
    · rw [h]; exact fun hh => h3 hh.symm

/-- The insert branch of `save_book` (storage.py lines 122-138), fully
characterized when both writes succeed and the record carries its natural
key and a name. -/
lemma save_book_insert (digest : String → String)
    {d : Dict} {st : Store} {srcv nm : Val}
    (hsrc : dget d "source_url" = some srcv)
    (hnm : dget d "name" = some nm)
    (hfind : find_by_source_url st.books srcv = Option.none) :
    save_book digest true true d st =
      (some ("oid" ++ toString st.nextId),
       { books := st.books ++ [dmerge d (insert_metadata (compute_content_hash digest d)
           (save_html_snapshot (pyStr srcv) st.time) ("oid" ++ toString st.nextId) st.time)],
         changes := st.changes ++ [⟨"oid" ++ toString st.nextId, nm, "new", [], st.time⟩],
         crawl_state := st.crawl_state,
         nextId := st.nextId + 1,
         time := st.time }) := by
  simp [save_book, hsrc, hfind, log_new_book, hnm]

lemma update_crawl_state_changes (w : Bool) (p : StatePatch) (st : Store) :
    (update_crawl_state w p st).changes = st.changes := by
  unfold update_crawl_state
  split <;> rfl

lemma update_crawl_state_false (p : StatePatch) (st : Store) :
    update_crawl_state false p st = st := rfl

lemma update_crawl_state_books (w : Bool) (p : StatePatch) (st : Store) :
    (update_crawl_state w p st).books = st.books := by
  unfold update_crawl_state
  split <;> rfl

lemma scrape_book_store_shape (env : CrawlEnv) (url : String) (rs : RunState) :
    (scrape_book env url rs).2.store = rs.store ∨
    ∃ d, (scrape_book env url rs).2.store =
      (save_book env.digest (env.bookWriteOk url) (env.changeWriteOk url) d rs.store).2 := by
  unfold scrape_book
  repeat' split
  all_goals try (left; rfl)
  all_goals rename_i heq
  all_goals exact Or.inr ⟨_, (congrArg (fun x => x.2) heq).symm⟩

lemma scrape_book_crawl_state (env : CrawlEnv) (url : String) (rs : RunState) :
    (scrape_book env url rs).2.store.crawl_state = rs.store.crawl_state := by
  rcases scrape_book_store_shape env url rs with h | ⟨d, h⟩
  · rw [h]
  · rw [h, save_book_crawl_state]

lemma scrape_book_extend (env : CrawlEnv) (url : String) (rs : RunState) :
    changesExtend rs.store (scrape_book env url rs).2.store := by
  rcases scrape_book_store_shape env url rs with h | ⟨d, h⟩
  · rw [h]; exact changesExtend_refl _
  · rw [h]; exact save_book_extend _ _ _ _ _

lemma scrape_book_pageTrace (env : CrawlEnv) (url : String) (rs : RunState) :
    (scrape_book env url rs).2.pageTrace = rs.pageTrace := by
  unfold scrape_book
  repeat' split
  all_goals rfl

lemma scrape_fold_props (env : CrawlEnv) (links : List String) :
    ∀ acc : Nat × RunState,
      ((links.foldl (scrape_step env) acc).2).store.crawl_state = acc.2.store.crawl_state ∧
      ((links.foldl (scrape_step env) acc).2).pageTrace = acc.2.pageTrace ∧
      changesExtend acc.2.store ((links.foldl (scrape_step env) acc).2).store := by
  induction links with
  | nil => exact fun acc => ⟨rfl, rfl, changesExtend_refl _⟩
  | cons url t ih =>
    intro acc
    obtain ⟨h1, h2, h3⟩ := ih (scrape_step env acc url)
    refine ⟨?_, ?_, ?_⟩
    · rw [List.foldl_cons, h1]
      exact scrape_book_crawl_state env url acc.2
    · rw [List.foldl_cons, h2]
      exact scrape_book_pageTrace env url acc.2
    · rw [List.foldl_cons]
      exact changesExtend_trans (scrape_book_extend env url acc.2) h3

lemma scrape_batch_crawl_state (env : CrawlEnv) (links : List String) (rs : RunState) :
    ((scrape_batch env links rs).2).store.crawl_state = rs.store.crawl_state :=
  (scrape_fold_props env links (0, rs)).1

lemma scrape_batch_pageTrace (env : CrawlEnv) (links : List String) (rs : RunState) :
    ((scrape_batch env links rs).2).pageTrace = rs.pageTrace :=
  (scrape_fold_props env links (0, rs)).2.1

lemma scrape_batch_extend (env : CrawlEnv) (links : List String) (rs : RunState) :
    changesExtend rs.store ((scrape_batch env links rs).2).store :=
  (scrape_fold_props env links (0, rs)).2.2

lemma pageDone_crawl_state (env : CrawlEnv) (links : List String) (p : StatePatch)
    (rs0 : RunState) (hw : env.stateWriteOk = false) :
    (update_crawl_state env.stateWriteOk p (scrape_batch env links rs0).2.store).crawl_state =
      rs0.store.crawl_state := by
  rw [hw, update_crawl_state_false, scrape_batch_crawl_state]

lemma pageDone_extend (env : CrawlEnv) (links : List String) (p : StatePatch)
    (rs0 : RunState) :
    changesExtend rs0.store
      (update_crawl_state env.stateWriteOk p (scrape_batch env links rs0).2.store) :=
  changesExtend_trans (scrape_batch_extend env links rs0)
    (changesExtend_of_changes_eq (update_crawl_state_changes _ _ _))

lemma crawl_loop_props (env : CrawlEnv) :
    ∀ (fuel : Nat) (cur : String) (total : Nat) (rs : RunState) (res : LoopExit),
      crawl_loop env fuel cur total rs = some res →
      (env.stateWriteOk = false → res.state.store.crawl_state = rs.store.crawl_state) ∧
      changesExtend rs.store res.state.store ∧
      ∃ rest, res.state.pageTrace = rs.pageTrace ++ cur :: rest := by
  intro fuel
  induction fuel with
  | zero => intro cur total rs res h; exact absurd h (by simp [crawl_loop])
  | succ f ih =>
    intro cur total rs res h
    simp only [crawl_loop] at h
    repeat' split at h
    all_goals try simp only [Option.some.injEq] at h
    case _ =>
      subst h
      exact ⟨fun _ => rfl, changesExtend_refl _, ⟨[], by simp [LoopExit.state]⟩⟩
    case _ =>
      subst h
      exact ⟨fun _ => rfl, changesExtend_refl _, ⟨[], by simp [LoopExit.state]⟩⟩
    case _ =>
      subst h
      exact ⟨fun _ => rfl, changesExtend_refl _, ⟨[], by simp [LoopExit.state]⟩⟩
    case _ =>
      subst h
      refine ⟨?_, ?_, ?_⟩
      · intro hw
        exact pageDone_crawl_state env _ _ _ hw
      · exact pageDone_extend env _ _ _
      · exact ⟨[], by simp [LoopExit.state, scrape_batch_pageTrace]⟩
    case _ =>
      subst h
      refine ⟨?_, ?_, ?_⟩
      · intro hw
        exact pageDone_crawl_state env _ _ _ hw
      · exact pageDone_extend env _ _ _
      · exact ⟨[], by simp [LoopExit.state, scrape_batch_pageTrace]⟩
    case _ =>
      rename_i nxt heqn hne
      obtain ⟨ih1, ih2, rest, ih3⟩ := ih _ _ _ res h
      refine ⟨?_, ?_, ?_⟩
      · intro hw
        rw [ih1 hw]
        exact pageDone_crawl_state env _ _ _ hw
      · refine changesExtend_trans ?_ ih2
        exact pageDone_extend env _ _ _
      · refine ⟨nxt :: rest, ?_⟩
        rw [ih3]
        simp [scrape_batch_pageTrace]

lemma crawl_loop_done (env : CrawlEnv) (hgood : pagesFetchOk env) :
    ∀ (fuel : Nat) (cur : String) (total : Nat) (rs : RunState) (res : LoopExit),
      crawl_loop env fuel cur total rs = some res →
      ∃ t r2, res = LoopExit.done t r2 := by
  intro fuel
  induction fuel with
  | zero => intro cur total rs res h; exact absurd h (by simp [crawl_loop])
  | succ f ih =>
    intro cur total rs res h
    simp only [crawl_loop] at h
    repeat' split at h
    all_goals try simp only [Option.some.injEq] at h
    case _ =>
      rename_i heq
      obtain ⟨b, hb, hne⟩ := hgood cur
      rw [heq] at hb
      exact absurd hb (by simp)
    case _ =>
      rename_i html heq hemp
      obtain ⟨b, hb, hne⟩ := hgood cur
      rw [heq] at hb
      simp only [Option.some.injEq] at hb
      exact absurd (hb ▸ hemp) hne
    case _ => exact ⟨_, _, h.symm⟩
    case _ => exact ⟨_, _, h.symm⟩
    case _ => exact ⟨_, _, h.symm⟩
    case _ => exact ih _ _ _ res h

lemma crawl_all_books_extend (env : CrawlEnv) (fuel : Nat) (resume : Bool)
    (st : Store) (r : RunResult) (h : crawl_all_books env fuel resume st = some r) :
    changesExtend st r.store := by
  simp only [crawl_all_books] at h
  repeat' split at h
  · exact absurd h (by simp)
  · rename_i heq
    simp only [Option.some.injEq] at h
    subst h
    have hp := (crawl_loop_props env fuel _ _ _ _ heq).2.1
    refine changesExtend_trans (changesExtend_of_changes_eq (update_crawl_state_changes _ _ _))
      (changesExtend_trans hp (changesExtend_of_changes_eq (update_crawl_state_changes _ _ _)))
  · rename_i heq
    simp only [Option.some.injEq] at h
    subst h
    have hp := (crawl_loop_props env fuel _ _ _ _ heq).2.1
    refine changesExtend_trans (changesExtend_of_changes_eq (update_crawl_state_changes _ _ _))
      (changesExtend_trans hp (changesExtend_of_changes_eq (update_crawl_state_changes _ _ _)))

lemma crawl_all_books_trace (env : CrawlEnv) (fuel : Nat) (resume : Bool)
    (st : Store) (r : RunResult) (h : crawl_all_books env fuel resume st = some r) :
    ∃ rest, r.pageTrace =
      start_url env resume (update_crawl_state env.stateWriteOk running_patch st) :: rest := by
  simp only [crawl_all_books, running_patch] at h ⊢
  repeat' split at h
  · exact absurd h (by simp)
  · rename_i heq
    simp only [Option.some.injEq] at h
    subst h
    obtain ⟨rest, hr⟩ := (crawl_loop_props env fuel _ _ _ _ heq).2.2
    exact ⟨rest, hr⟩
  · rename_i heq
    simp only [Option.some.injEq] at h
    subst h
    obtain ⟨rest, hr⟩ := (crawl_loop_props env fuel _ _ _ _ heq).2.2
    exact ⟨rest, hr⟩

lemma crawl_all_books_state_noWrite (env : CrawlEnv) (fuel : Nat) (resume : Bool)
    (st : Store) (r : RunResult) (hw : env.stateWriteOk = false)
    (h : crawl_all_books env fuel resume st = some r) :
    r.store.crawl_state = st.crawl_state := by
  simp only [crawl_all_books] at h
  repeat' split at h
  · exact absurd h (by simp)
  · rename_i heq
    simp only [Option.some.injEq] at h
    subst h
    have hp := (crawl_loop_props env fuel _ _ _ _ heq).1 hw
    show (update_crawl_state env.stateWriteOk _ _).crawl_state = st.crawl_state
    rw [hw, update_crawl_state_false]
    rw [hw, update_crawl_state_false] at hp
    exact hp
  · rename_i heq
    simp only [Option.some.injEq] at h
    subst h
    have hp := (crawl_loop_props env fuel _ _ _ _ heq).1 hw
    show (update_crawl_state env.stateWriteOk _ _).crawl_state = st.crawl_state
    rw [hw, update_crawl_state_false]
    rw [hw, update_crawl_state_false] at hp
    exact hp

lemma crawl_all_books_completed (env : CrawlEnv) (hgood : pagesFetchOk env)
    (fuel : Nat) (resume : Bool) (st : Store) (r : RunResult)
    (h : crawl_all_books env fuel resume st = some r) :
    r.raised = Option.none ∧
    (env.stateWriteOk = true → run_status r.store = some "completed") := by
  simp only [crawl_all_books] at h
  repeat' split at h
  · exact absurd h (by simp)
  · simp only [Option.some.injEq] at h
    subst h
    refine ⟨rfl, fun hw => ?_⟩
    simp [run_status, update_crawl_state, hw, applyPatch]
  · rename_i heq
    obtain ⟨t, r2, hres⟩ := crawl_loop_done env hgood fuel _ _ _ _ heq
    simp at hres

lemma filter_length_set {l : List TaskPhase} :
    ∀ {i : Nat} {w : TaskPhase} (_ : l.get? i = some w) (v : TaskPhase),
      (List.filter (fun p => p == TaskPhase.inFlight) (l.set i v)).length +
        (if w = TaskPhase.inFlight then 1 else 0) =
      (List.filter (fun p => p == TaskPhase.inFlight) l).length +
        (if v = TaskPhase.inFlight then 1 else 0) := by
  induction l with
  | nil => intro i w h v; simp at h
  | cons a t ih =>
    intro i w h v
    cases i with
    | zero =>
      simp only [List.get?, Option.some.injEq] at h
      subst h
      by_cases hv : v = TaskPhase.inFlight <;> by_cases hw : a = TaskPhase.inFlight <;>
        simp [List.set, List.filter_cons, hv, hw] <;> omega
    | succ j =>
      simp only [List.get?] at h
      have hih := ih h v
      by_cases ha : a = TaskPhase.inFlight
      · simp only [List.set, List.filter_cons, ha]
        simp
        omega
      · simp only [List.set, List.filter_cons, ha]
        simp [ha]
        omega

lemma semStep_inv {K : Nat} {s t : SemState} (hs : SemStep s t) (h : semInv K s) :
    semInv K t := by
  cases hs with
  | acquire i hp ht =>
    unfold semInv inFlightCount at h ⊢
    have hc := filter_length_set hp TaskPhase.inFlight
    simp at hc ⊢
    omega
  | release i hp =>
    unfold semInv inFlightCount at h ⊢
    have hc := filter_length_set hp TaskPhase.done
    simp at hc ⊢
    omega

lemma filter_inFlight_replicate (n : Nat) :
    (List.replicate n TaskPhase.pending).filter (fun p => p == TaskPhase.inFlight) = [] := by
  induction n with
  | zero => rfl
  | succ k ih => simp [List.replicate, List.filter_cons, ih]

lemma semReach_inv {K n : Nat} : ∀ {s : SemState}, SemReach (semInit K n) s → semInv K s := by
  intro s h
  induction h with
  | refl =>
    unfold semInv inFlightCount semInit
    simp [filter_inFlight_replicate]
  | step _ hs ih => exact semStep_inv hs ih

lemma filterMap_congr_mem {α β : Type} {f g : α → Option β} :
    ∀ {l : List α}, (∀ x ∈ l, f x = g x) → l.filterMap f = l.filterMap g := by
  intro l
  induction l with
  | nil => intro _; rfl
  | cons a t ih =>
    intro h
    rw [List.filterMap_cons, List.filterMap_cons, h a (by simp), ih (fun x hx => h x (by simp [hx]))]

lemma content_str_congr {d1 d2 : Dict}
    (h : ∀ k ∈ relevant_fields, dget d1 k = dget d2 k) :
    content_str d1 = content_str d2 := by
  unfold content_str contentPairs
  rw [filterMap_congr_mem (fun k hk => by rw [h k hk])]

lemma fetch_attempts_success (rd : ℚ) (mr : Nat) (oc : Nat → FetchOutcome) :
    ∀ (rem attempt : Nat) (b : String), attempt ≤ mr →
      (fetch_attempts rd mr oc rem attempt).1 = some b →
      ∃ a, a ≤ mr ∧ oc a = FetchOutcome.success b := by
  intro rem
  induction rem with
  | zero => intro attempt b _ h; simp [fetch_attempts] at h
  | succ k ih =>
    intro attempt b hle h
    simp only [fetch_attempts] at h
    cases hoc : oc attempt with
    | success body =>
      rw [hoc] at h
      simp only [Option.some.injEq] at h
      exact ⟨attempt, hle, by rw [hoc, h]⟩
    | httpError code =>
      rw [hoc] at h
      by_cases hc : code = 404
      · simp [hc] at h
      · by_cases ha : attempt < mr
        · simp only [hc, if_neg, ite_false, ha, if_pos, ite_true] at h
          exact ih (attempt + 1) b ha h
        · simp [hc, ha] at h
    | requestError =>
      rw [hoc] at h
      by_cases ha : attempt < mr
      · simp only [ha, if_pos, ite_true] at h
        exact ih (attempt + 1) b ha h
      · simp [ha] at h
    | unexpectedError => rw [hoc] at h; simp at h

lemma dget_insertMeta_src (d : Dict) (ch hp nid : String) (t : Nat) :
    dget (dmerge d (insert_metadata ch hp nid t)) "source_url" = dget d "source_url" := by
  refine dget_dmerge_notin _ _ ?_
  intro p hp2
  simp only [insert_metadata, List.mem_cons, List.not_mem_nil, or_false] at hp2
  rcases hp2 with h | h | h | h | h | h <;> simp [h]

lemma dget_insertMeta_name (d : Dict) (ch hp nid : String) (t : Nat) :
    dget (dmerge d (insert_metadata ch hp nid t)) "name" = dget d "name" := by
  refine dget_dmerge_notin _ _ ?_
  intro p hp2
  simp only [insert_metadata, List.mem_cons, List.not_mem_nil, or_false] at hp2
  rcases hp2 with h | h | h | h | h | h <;> simp [h]

lemma dget_insertMeta_hash (d : Dict) (ch hp nid : String) (t : Nat) :
    dget (dmerge d (insert_metadata ch hp nid t)) "content_hash" = some (Val.vstr ch) := by
  have hshape : insert_metadata ch hp nid t =
      [("crawl_timestamp", Val.vnat t), ("last_updated", Val.vnat t),
       ("status", Val.vstr "active")] ++ ("content_hash", Val.vstr ch) ::
      [("html_snapshot_path", Val.vstr hp), ("_id", Val.vstr nid)] := rfl
  rw [hshape]
  refine dget_dmerge_self _ _ _ ?_
  intro p hp2
  simp only [List.mem_cons, List.not_mem_nil, or_false] at hp2
  rcases hp2 with h | h <;> simp [h]

lemma dget_insertMeta_id (d : Dict) (ch hp nid : String) (t : Nat) :
    dget (dmerge d (insert_metadata ch hp nid t)) "_id" = some (Val.vstr nid) := by
  have hshape : insert_metadata ch hp nid t =
      [("crawl_timestamp", Val.vnat t), ("last_updated", Val.vnat t),
       ("status", Val.vstr "active"), ("content_hash", Val.vstr ch),
       ("html_snapshot_path", Val.vstr hp)] ++ ("_id", Val.vstr nid) :: [] := rfl
  rw [hshape]
  exact dget_dmerge_self _ _ _ (by simp)

/-- Submitting the identical record again right after its insert hits the
hash-match no-op branch: the store is returned unchanged with the same id. -/
lemma save_book_after_insert (digest : String → String)
    {d : Dict} {st : Store} {srcv nm : Val}
    (hsrc : dget d "source_url" = some srcv)
    (hnm : dget d "name" = some nm)
    (hfind : find_by_source_url st.books srcv = Option.none) :
    save_book digest true true d ((save_book digest true true d st).2) =
      ((save_book digest true true d st).1, (save_book digest true true d st).2) := by
  rw [save_book_insert digest hsrc hnm hfind]
  have hfind2 : find_by_source_url
      (st.books ++ [dmerge d (insert_metadata (compute_content_hash digest d)
        (save_html_snapshot (pyStr srcv) st.time) ("oid" ++ toString st.nextId) st.time)]) srcv =
      some (dmerge d (insert_metadata (compute_content_hash digest d)
        (save_html_snapshot (pyStr srcv) st.time) ("oid" ++ toString st.nextId) st.time)) := by
    rw [find_by_source_url_append _ hfind]
    unfold find_by_source_url
    rw [dget_insertMeta_src, hsrc]
    simp
  exact save_book_hash_match digest true true hsrc hfind2
    (dget_insertMeta_hash d _ _ _ _) (dget_insertMeta_id d _ _ _ _) hnm

lemma map_congr_mem {α β : Type} {f g : α → β} :
    ∀ {l : List α}, (∀ x ∈ l, f x = g x) → l.map f = l.map g := by
  intro l
  induction l with
  | nil => intro _; rfl
  | cons a t ih =>
    intro h
    rw [List.map_cons, List.map_cons, h a (by simp), ih (fun x hx => h x (by simp [hx]))]

lemma fetch_attempts_all_transient (rd : ℚ) (mr : Nat) (oc : Nat → FetchOutcome)
    (hoc : ∀ n, oc n = FetchOutcome.requestError) :
    ∀ (rem attempt : Nat), attempt + rem = mr + 1 →
      fetch_attempts rd mr oc rem attempt =
        (Option.none, (List.range (mr - attempt)).map
          (fun i : Nat => rd * ((attempt : ℚ) + (i : ℚ) + 1))) := by
  intro rem
  induction rem with
  | zero =>
    intro attempt h
    have h0 : mr - attempt = 0 := by omega
    simp [fetch_attempts, h0]
  | succ k ih =>
    intro attempt h
    simp only [fetch_attempts, hoc attempt]
    by_cases ha : attempt < mr
    · have hr := ih (attempt + 1) (by omega)
      simp only [ha, if_pos, ite_true, hr]
      have hrange : mr - attempt = (mr - (attempt + 1)) + 1 := by omega
      rw [hrange, List.range_succ_eq_map, List.map_cons, List.map_map]
      simp only [Prod.mk.injEq, true_and]
      congr 1
      · push_cast
        ring
      · refine map_congr_mem ?_
        intro i _
        simp only [Function.comp]
        push_cast
        ring
    · have hm : attempt = mr := by omega
      subst hm
      simp [Nat.lt_irrefl, Nat.sub_self]

lemma start_url_of_stored (env : CrawlEnv) {st : Store} {doc : CrawlStateDoc} {u : String}
    (hread : env.stateReadOk = true) (hdoc : st.crawl_state = some doc)
    (hu : doc.last_successful_url = some u) (hne : u ≠ "") (w : Bool) :
    start_url env true (update_crawl_state w running_patch st) = u := by
  cases w
  · simp [update_crawl_state, start_url, get_crawl_state, hread, hdoc, hu, hne]
  · simp [update_crawl_state, start_url, get_crawl_state, hread, hdoc, applyPatch,
      running_patch, hu, hne]

/-- C1 (amended): when a processed index page yields zero child-record URLs
the Traversal Controller logs the anomaly and breaks out of the pagination
loop without raising, and such a run then terminates with Crawl State status
`completed`, not `failed`: the loop returns a normal `done` exit from the
empty page, and every fuel-terminated run that re-raises nothing ends with
persisted status `completed` (when the state write succeeds). -/
theorem empty_page_break_completes :
    (∀ (env : CrawlEnv) (fuel total : Nat) (cur : String) (rs : RunState) (b : String),
        env.pageFetch cur = some b → b ≠ "" → env.pageLinks b cur = [] →
        crawl_loop env (fuel + 1) cur total rs =
          some (LoopExit.done total { rs with pageTrace := rs.pageTrace ++ [cur] })) ∧
    (∀ (env : CrawlEnv) (fuel : Nat) (resume : Bool) (st : Store) (r : RunResult),
        env.stateWriteOk = true →
        crawl_all_books env fuel resume st = some r →
        r.raised = Option.none →
        run_status r.store = some "completed") := by
  constructor
  · intro env fuel total cur rs b h1 h2 h3
    simp [crawl_loop, h1, h2, h3]
  · intro env fuel resume st r hw h hr
    simp only [crawl_all_books] at h
    repeat' split at h
    · exact absurd h (by simp)
    · simp only [Option.some.injEq] at h
      subst h
      simp [run_status, update_crawl_state, hw, applyPatch]
    · simp only [Option.some.injEq] at h
      subst h
      exact absurd hr (by simp)

/-- C1 (witness): a concrete run whose first page yields zero links breaks
the loop and ends `completed`. -/
theorem empty_page_break_completes_witness :
    crawl_loop envEmptyPage 1 first_page_url 0
        { store := emptyStore, visited := [], pageTrace := [] } =
      some (LoopExit.done 0
        { store := emptyStore, visited := [], pageTrace := [first_page_url] }) ∧
    ∃ r, crawl_all_books envEmptyPage 1 false emptyStore = some r ∧
      run_status r.store = some "completed" :=
  ⟨empty_page_break_completes.1 envEmptyPage 0 0 first_page_url
      ⟨emptyStore, [], []⟩ "h" rfl (by decide) rfl,
   ⟨_, rfl, empty_page_break_completes.2 envEmptyPage 1 false emptyStore _ rfl rfl rfl⟩⟩

/-- C1 (counterexample): the claim as stated is false: a run in which the
processed catalog page produces an empty book-link list terminates with
persisted status `completed`, not `failed`. -/
theorem empty_page_failed_counterexample :
    envEmptyPage.pageLinks "h" first_page_url = [] ∧
    (crawl_all_books envEmptyPage 1 false emptyStore).map
        (fun r => (run_status r.store, r.raised)) =
      some (some "completed", Option.none) :=
  ⟨rfl, by decide⟩

/-- C2 (amended): a store write failure is caught inside the storage layer
and never propagates: a failing `books`-collection write leaves the record
store unmutated and `save_book` returns None instead of raising; a failing
crawl-state write leaves the state document untouched; and a run in which
any combination of store writes fail (with pages still fetchable) re-raises
nothing and is never marked `failed` — it ends `completed` when the state
write works, and leaves the persisted state untouched when it does not. -/
theorem persistence_failures_contained :
    (∀ (digest : String → String) (cw : Bool) (d : Dict) (st : Store),
        ((save_book digest false cw d st).2).books = st.books) ∧
    (∀ (p : StatePatch) (st : Store), update_crawl_state false p st = st) ∧
    (∀ (env : CrawlEnv) (fuel : Nat) (resume : Bool) (st : Store) (r : RunResult),
        pagesFetchOk env →
        crawl_all_books env fuel resume st = some r →
        r.raised = Option.none ∧
        (env.stateWriteOk = true → run_status r.store = some "completed") ∧
        (env.stateWriteOk = false → r.store.crawl_state = st.crawl_state)) := by
  refine ⟨save_book_books_noWrite, update_crawl_state_false, ?_⟩
  intro env fuel resume st r hgood h
  obtain ⟨h1, h2⟩ := crawl_all_books_completed env hgood fuel resume st r h
  exact ⟨h1, h2, fun hw => crawl_all_books_state_noWrite env fuel resume st r hw h⟩

/-- C2 (witness): the contained-failure facts at concrete inputs, including
a full run whose only book write fails. -/
theorem persistence_failures_contained_witness :
    ((save_book idDigest false true priceNew priceStore).2).books = priceStore.books ∧
    update_crawl_state false running_patch priceStore = priceStore ∧
    ∃ r, crawl_all_books envFailWrite 1 false emptyStore = some r ∧
      r.raised = Option.none ∧ run_status r.store = some "completed" := by
  refine ⟨persistence_failures_contained.1 idDigest true priceNew priceStore,
    persistence_failures_contained.2.1 running_patch priceStore, ?_⟩
  have h := persistence_failures_contained.2.2 envFailWrite 1 false emptyStore _
    (fun url => ⟨"h", rfl, by decide⟩) rfl
  exact ⟨_, rfl, h.1, h.2.1 rfl⟩

/-- C2 (counterexample): the claim as stated is false: a run whose
Entity-Record write raises ends with status `completed` (the book simply is
not stored), no error is attached, and nothing propagates to the caller. -/
theorem persistence_failure_completed_counterexample :
    (∀ url, envFailWrite.bookWriteOk url = false) ∧
    (crawl_all_books envFailWrite 1 false emptyStore).map
        (fun r => (r.raised, run_status r.store, r.store.books)) =
      some (Option.none, some "completed", []) :=
  ⟨fun _ => rfl, by decide⟩

/-- C3 (amended): when the stored hash differs from the computed hash and at
least one tracked field (prices, availability, review count, rating,
description) differs, upsert updates the Entity Record and appends exactly
one `updated` Change Event carrying exactly the tracked fields whose old and
new values differ.  The record update is an `update_one` at the existing
record's id whose `$set` payload is the submitted fields plus the new
metadata, and the merged record carries the new content hash, the new
`last_updated` timestamp, and the submitted value of every field of the
(duplicate-free) submission other than the three overridden metadata keys.
A hash difference confined to untracked canonical fields (name, category)
appends no event at all. -/
theorem update_event_exact_tracked_diff (digest : String → String)
    {d : Dict} {st : Store} {srcv idv : Val} {existing : Dict} {nm : Val}
    (hnodup : (d.map Prod.fst).Nodup)
    (hsrc : dget d "source_url" = some srcv)
    (hfind : find_by_source_url st.books srcv = some existing)
    (hhash : dget existing "content_hash" ≠
      some (Val.vstr (compute_content_hash digest d)))
    (hdiff : diff_fields existing d ≠ [])
    (hid : dget existing "_id" = some idv)
    (hnm : dget d "name" = some nm) :
    ((save_book digest true true d st).2).changes =
      st.changes ++ [⟨pyStr idv, nm, "updated", diff_fields existing d, st.time⟩] ∧
    ((save_book digest true true d st).2).books =
      update_by_id st.books idv
        (d ++ update_metadata (compute_content_hash digest d)
          (save_html_snapshot (pyStr srcv) st.time) st.time) ∧
    ∀ b : Dict,
      dget (dmerge b (d ++ update_metadata (compute_content_hash digest d)
          (save_html_snapshot (pyStr srcv) st.time) st.time)) "content_hash" =
        some (Val.vstr (compute_content_hash digest d)) ∧
      dget (dmerge b (d ++ update_metadata (compute_content_hash digest d)
          (save_html_snapshot (pyStr srcv) st.time) st.time)) "last_updated" =
        some (Val.vnat st.time) ∧
      ∀ (k : String) (v : Val), dget d k = some v →
        k ≠ "content_hash" → k ≠ "last_updated" → k ≠ "html_snapshot_path" →
        dget (dmerge b (d ++ update_metadata (compute_content_hash digest d)
          (save_html_snapshot (pyStr srcv) st.time) st.time)) k = some v := by
  refine ⟨save_book_update_changes digest true hsrc hfind hhash hdiff hid hnm,
    save_book_update_books digest hsrc hfind hhash hid hnm, ?_⟩
  intro b
  exact ⟨dget_updateMeta_hash b d _ _ _, dget_updateMeta_time b d _ _ _,
    fun k v hk h1 h2 h3 => dget_updateMeta_field b d _ _ _ hnodup hk h1 h2 h3⟩

set_option maxRecDepth 8000 in
/-- C3 (witness): the stored record with price_including_tax 51.77
re-submitted at 49.99, all else equal, yields exactly one `updated` event
whose changed-fields map is exactly the price diff, and the stored Entity
Record now carries price 49.99, the new content hash, and the new
`last_updated` timestamp. -/
theorem update_event_exact_tracked_diff_witness :
    ((save_book idDigest true true priceNew priceStore).2).changes =
      [⟨"oid0", Val.vstr "A", "updated",
        [("price_including_tax",
          (some (Val.vnum (mkRat 5177 100)), some (Val.vnum (mkRat 4999 100))))], 5⟩] ∧
    ((save_book idDigest true true priceNew priceStore).2).books =
      update_by_id priceStore.books (Val.vstr "oid0")
        (priceNew ++ update_metadata (compute_content_hash idDigest priceNew)
          (save_html_snapshot "u1" 5) 5) ∧
    (((save_book idDigest true true priceNew priceStore).2).books.head?).map
        (fun b => (dget b "price_including_tax", dget b "content_hash",
          dget b "last_updated")) =
      some (some (Val.vnum (mkRat 4999 100)),
        some (Val.vstr (compute_content_hash idDigest priceNew)),
        some (Val.vnat 5)) := by
  have h := @update_event_exact_tracked_diff idDigest priceNew priceStore
    (Val.vstr "u1") (Val.vstr "oid0") priceStored (Val.vstr "A")
    (by decide) (by decide) (by decide) (by decide) (by decide) (by decide) (by decide)
  refine ⟨?_, h.2.1, ?_⟩
  · rw [h.1]
    decide
  · decide

set_option maxRecDepth 8000 in
/-- C3 (counterexample): the claim as stated is false: a re-submission whose
only difference is the category changes the content hash, so the Entity
Record is updated in place (its stored category becomes `c2` and its stored
hash becomes the new hash) and the id is returned — yet zero Change Events
are appended, because `_log_changes` diffs only the six tracked fields. -/
theorem hash_change_without_event_counterexample :
    dget priceStored "content_hash" ≠
      some (Val.vstr (compute_content_hash idDigest catNew)) ∧
    (save_book idDigest true true catNew priceStore).1 = some "oid0" ∧
    (((save_book idDigest true true catNew priceStore).2).books.head?).map
        (fun b => (dget b "category", dget b "content_hash")) =
      some (some (Val.vstr "c2"),
        some (Val.vstr (compute_content_hash idDigest catNew))) ∧
    ((save_book idDigest true true catNew priceStore).2).changes = [] := by decide

/-- C4: upsert is idempotent on unchanged records: a stored record whose
content hash equals the newly computed hash is returned with no mutation of
the store and no event; consequently upserting an identical record twice
yields exactly one `new` event, zero `updated` events, and the second call
is a pure no-op returning the same id and the same store. -/
theorem upsert_idempotent :
    (∀ (digest : String → String) (bw cw : Bool) (d : Dict) (st : Store)
        (srcv idv : Val) (existing : Dict) (nm : Val),
        dget d "source_url" = some srcv →
        find_by_source_url st.books srcv = some existing →
        dget existing "content_hash" = some (Val.vstr (compute_content_hash digest d)) →
        dget existing "_id" = some idv →
        dget d "name" = some nm →
        save_book digest bw cw d st = (some (pyStr idv), st)) ∧
    (∀ (digest : String → String) (d : Dict) (st : Store) (srcv nm : Val),
        dget d "source_url" = some srcv →
        dget d "name" = some nm →
        find_by_source_url st.books srcv = Option.none →
        ((save_book digest true true d st).2).changes =
          st.changes ++ [⟨"oid" ++ toString st.nextId, nm, "new", [], st.time⟩] ∧
        save_book digest true true d ((save_book digest true true d st).2) =
          ((save_book digest true true d st).1, (save_book digest true true d st).2)) := by
  constructor
  · intro digest bw cw d st srcv idv existing nm h1 h2 h3 h4 h5
    exact save_book_hash_match digest bw cw h1 h2 h3 h4 h5
  · intro digest d st srcv nm h1 h2 h3
    refine ⟨?_, save_book_after_insert digest h1 h2 h3⟩
    rw [save_book_insert digest h1 h2 h3]

set_option maxRecDepth 8000 in
/-- C4 (witness): re-submitting the already-stored record is a pure no-op,
and inserting a fresh record twice yields exactly the one `new` event with
the second call a no-op. -/
theorem upsert_idempotent_witness :
    save_book idDigest true true priceOld priceStore = (some "oid0", priceStore) ∧
    (((save_book idDigest true true priceOld emptyStore).2).changes =
        [⟨"oid0", Val.vstr "A", "new", [], 0⟩] ∧
      save_book idDigest true true priceOld
          ((save_book idDigest true true priceOld emptyStore).2) =
        ((save_book idDigest true true priceOld emptyStore).1,
         (save_book idDigest true true priceOld emptyStore).2)) := by
  constructor
  · exact upsert_idempotent.1 idDigest true true priceOld priceStore (Val.vstr "u1")
      (Val.vstr "oid0") priceStored (Val.vstr "A") (by decide) (by decide) (by decide)
      (by decide) (by decide)
  · have h := upsert_idempotent.2 idDigest priceOld emptyStore (Val.vstr "u1")
      (Val.vstr "A") (by decide) (by decide) (by decide)
    refine ⟨?_, h.2⟩
    rw [h.1]
    decide

/-- C5: the retry policy: a not-found (404) response is terminal with zero
retries and no sleeps; a persistently transient failure is retried exactly
up to the configured maximum, sleeping `base_delay × attempt_number`
(linearly increasing) between attempts; and a fetch failing transiently
exactly twice then succeeding on the third attempt returns the fetched
content having slept the strictly increasing delays `base·1 < base·2`. -/
theorem retry_policy_linear_backoff :
    (∀ (rd : ℚ) (mr : Nat) (oc : Nat → FetchOutcome),
        oc 0 = FetchOutcome.httpError 404 →
        fetch_with_retry rd mr oc = (Option.none, [])) ∧
    (∀ (rd : ℚ) (mr : Nat) (oc : Nat → FetchOutcome),
        (∀ n, oc n = FetchOutcome.requestError) →
        fetch_with_retry rd mr oc =
          (Option.none, (List.range mr).map (fun i : Nat => rd * ((i : ℚ) + 1)))) ∧
    (∀ (rd : ℚ) (oc : Nat → FetchOutcome) (b : String),
        0 < rd →
        oc 0 = FetchOutcome.requestError →
        oc 1 = FetchOutcome.requestError →
        oc 2 = FetchOutcome.success b →
        fetch_with_retry rd 2 oc = (some b, [rd * 1, rd * 2]) ∧ rd * 1 < rd * 2) := by
  refine ⟨?_, ?_, ?_⟩
  · intro rd mr oc h
    simp [fetch_with_retry, fetch_attempts, h]
  · intro rd mr oc h
    have ht := fetch_attempts_all_transient rd mr oc h (mr + 1) 0 (by omega)
    rw [fetch_with_retry, ht]
    simp only [Nat.sub_zero, Prod.mk.injEq, true_and]
    refine map_congr_mem ?_
    intro i _
    push_cast
    ring
  · intro rd oc b hrd h0 h1 h2
    constructor
    · simp only [fetch_with_retry, fetch_attempts, h0, h1, h2]
      norm_num
    · nlinarith

/-- C5 (witness): the policy at concrete outcome sequences: 404 is terminal
with no sleeps, three all-transient attempts sleep 2, 4, 6, and the
fail-fail-succeed sequence returns the body after sleeping 2 then 4. -/
theorem retry_policy_linear_backoff_witness :
    fetch_with_retry 2 3 oc404 = (Option.none, []) ∧
    fetch_with_retry 2 3 ocTransientAll =
      (Option.none, (List.range 3).map (fun i : Nat => 2 * ((i : ℚ) + 1))) ∧
    (fetch_with_retry 2 2 ocThird = (some "body", [2 * 1, 2 * 2]) ∧ (2 : ℚ) * 1 < 2 * 2) :=
  ⟨retry_policy_linear_backoff.1 2 3 oc404 rfl,
   retry_policy_linear_backoff.2.1 2 3 ocTransientAll (fun n => rfl),
   retry_policy_linear_backoff.2.2 2 ocThird "body" (by norm_num) rfl rfl rfl⟩

/-- C6 (amended): `run(resume=true)` begins traversal at the stored
last-completed cursor whenever the Crawl State holds a non-null, non-empty
(Python-truthy) cursor, and at the first page otherwise; `run(resume=false)`
always begins at the first page regardless of stored state. -/
theorem resume_start_cursor :
    (∀ (env : CrawlEnv) (fuel : Nat) (st : Store) (doc : CrawlStateDoc)
        (u : String) (r : RunResult),
        env.stateReadOk = true →
        st.crawl_state = some doc →
        doc.last_successful_url = some u →
        u ≠ "" →
        crawl_all_books env fuel true st = some r →
        r.pageTrace.head? = some u) ∧
    (∀ (env : CrawlEnv) (fuel : Nat) (st : Store) (r : RunResult),
        crawl_all_books env fuel false st = some r →
        r.pageTrace.head? = some first_page_url) := by
  constructor
  · intro env fuel st doc u r hread hdoc hu hne h
    obtain ⟨rest, htr⟩ := crawl_all_books_trace env fuel true st r h
    rw [htr]
    simp only [List.head?]
    exact congrArg some (start_url_of_stored env hread hdoc hu hne env.stateWriteOk)
  · intro env fuel st r h
    obtain ⟨rest, htr⟩ := crawl_all_books_trace env fuel false st r h
    rw [htr]
    rfl

/-- C6 (witness): with stored cursor `"p5"`, `run(resume=true)` processes
`"p5"` first, and `run(resume=false)` processes the first catalog page
first. -/
theorem resume_start_cursor_witness :
    (∃ r, crawl_all_books envNoFetch 1 true stP5 = some r ∧
      r.pageTrace.head? = some "p5") ∧
    (∃ r, crawl_all_books envNoFetch 1 false stP5 = some r ∧
      r.pageTrace.head? = some first_page_url) :=
  ⟨⟨_, rfl, resume_start_cursor.1 envNoFetch 1 stP5 { last_successful_url := some "p5" }
      "p5" _ rfl rfl rfl (by decide) rfl⟩,
   ⟨_, rfl, resume_start_cursor.2 envNoFetch 1 stP5 _ rfl⟩⟩

/-- C6 (counterexample): the claim as stated is false: a Crawl State holding
the non-null cursor `""` makes `run(resume=true)` begin at the first page,
because the source tests the cursor for Python truthiness, not non-null. -/
theorem empty_cursor_resume_counterexample :
    stEmptyCursor.crawl_state = some { last_successful_url := some "" } ∧
    (crawl_all_books envNoFetch 1 true stEmptyCursor).map (fun r => r.pageTrace) =
      some [first_page_url] ∧
    first_page_url ≠ "" :=
  ⟨rfl, by decide, by decide⟩

/-- C7: the content hash is a pure deterministic function of exactly the
eight canonical-subset fields: any two record dictionaries agreeing on those
fields — whatever their field order and other fields — get the same hash,
for every digest function. -/
theorem content_hash_canonical_subset_only (digest : String → String) (d1 d2 : Dict)
    (h : ∀ k ∈ relevant_fields, dget d1 k = dget d2 k) :
    compute_content_hash digest d1 = compute_content_hash digest d2 := by
  unfold compute_content_hash
  rw [content_str_congr h]

set_option maxRecDepth 8000 in
/-- C7 (witness): two dictionaries with the same canonical values, reversed
insertion order and different metadata hash identically. -/
theorem content_hash_canonical_subset_only_witness :
    compute_content_hash idDigest hashDictA = compute_content_hash idDigest hashDictB :=
  content_hash_canonical_subset_only idDigest hashDictA hashDictB (by decide)

/-- C8: every Change Event a crawl run appends satisfies the invariant — a
`new` event has an empty changed-fields map, an `updated` event has a
non-empty map whose keys lie in the canonical subset — and the log is only
ever extended by appending: the prior log is a prefix of the final one. -/
theorem change_log_invariant_run (env : CrawlEnv) (fuel : Nat) (resume : Bool)
    (st : Store) (r : RunResult) (h : crawl_all_books env fuel resume st = some r) :
    ∃ tail, r.store.changes = st.changes ++ tail ∧ ∀ e ∈ tail, eventOk e :=
  crawl_all_books_extend env fuel resume st r h

/-- C8 (witness): a concrete one-page, one-book run only appends
invariant-respecting events. -/
theorem change_log_invariant_run_witness :
    ∃ r, crawl_all_books (constEnv ["b1"]) 1 false emptyStore = some r ∧
      ∃ tail, r.store.changes = emptyStore.changes ++ tail ∧ ∀ e ∈ tail, eventOk e :=
  ⟨_, rfl, change_log_invariant_run (constEnv ["b1"]) 1 false emptyStore _ rfl⟩

/-- C9: under the counting-semaphore discipline of `fetch_with_retry`
(`async with self.semaphore` around `client.get`, scraper.py lines 49-54),
every state reachable from `K` tokens and `n` fan-out tasks has at most `K`
fetches in flight. -/
theorem fetch_concurrency_bound (K n : Nat) (s : SemState)
    (h : SemReach (semInit K n) s) : inFlightCount s ≤ K := by
  have hinv := semReach_inv h
  unfold semInv at hinv
  omega

/-- C9 (witness): with 50 child URLs and K = 10, a reachable state with one
acquired token shows at most 10 in flight. -/
theorem fetch_concurrency_bound_witness :
    inFlightCount
      { tokens := 9,
        tasks := (List.replicate 50 TaskPhase.pending).set 0 TaskPhase.inFlight } ≤ 10 :=
  fetch_concurrency_bound 10 50 _
    (SemReach.step SemReach.refl
      (SemStep.acquire (semInit 10 50) 0 (by decide) (by decide)))

/-- C10: `fetch_with_retry` is total over its outcome model, and a non-None
result arises only from a successful (2xx) attempt within the attempt
budget; every other outcome sequence (404, exhausted retries, unexpected
exception) yields None rather than propagating. -/
theorem fetch_retry_total_success_only (rd : ℚ) (mr : Nat) (oc : Nat → FetchOutcome)
    (b : String) (h : (fetch_with_retry rd mr oc).1 = some b) :
    ∃ a, a ≤ mr ∧ oc a = FetchOutcome.success b :=
  fetch_attempts_success rd mr oc (mr + 1) 0 b (Nat.zero_le mr) h

/-- C10 (witness): the fail-fail-succeed sequence returns a body, and that
body indeed comes from a successful attempt within the budget. -/
theorem fetch_retry_total_success_only_witness :
    ∃ a, a ≤ 2 ∧ ocThird a = FetchOutcome.success "body" :=
  fetch_retry_total_success_only 2 2 ocThird "body" (by decide)
end BooksCrawler
